import Mathlib

/-!
Shallow embedding of the `anomaly-cli` TypeScript sources (src/src/index.ts,
src/src/auth/index.ts, src/src/commands/createApp.ts) and proofs about the
create-app workflow, the archiver, the uploader, the backend publisher and the
authentication error mapping.

Conventions of the embedding:
* JavaScript strings are modelled by Lean `String`; `value.length` is modelled
  by `String.length` (code points).
* A thrown JavaScript `Error` is modelled by the `JsError` structure carrying
  its `name` and `message`; fallible functions return `Except JsError _` or
  `Except String _`.
* External effects (the prompts library, the archiver's file scan, the Firebase
  upload task, `fetch`) are modelled by explicit outcome parameters; the control
  flow that reacts to those outcomes is translated from the source.
-/

namespace AnomalyCli

/-- A thrown JavaScript `Error` value: its `name` and its `message`. -/
structure JsError where
  name : String
  message : String
  deriving Repr, DecidableEq

/-- Model of JavaScript `String.prototype.includes`, via character lists:
`msgIncludes m sub = true` iff `sub` occurs contiguously inside `m`.
Used for the `error.message.includes("fetch")` test in `createAppInBackend`
(src/src/commands/createApp.ts line 290). -/
def charsInclude (sub : List Char) : List Char → Bool
  | [] => sub.isEmpty
  | c :: rest => List.isPrefixOf sub (c :: rest) || charsInclude sub rest

/-- String wrapper for `charsInclude`. -/
def msgIncludes (m sub : String) : Bool :=
  charsInclude sub.toList m.toList

/-- Model of JavaScript `String.prototype.trim`: drop whitespace characters
from both ends of the string. -/
def jsTrim (s : String) : String :=
  ⟨((s.toList.dropWhile Char.isWhitespace).reverse.dropWhile
      Char.isWhitespace).reverse⟩

/-! ## Archiver: `createZipFile` (src/src/commands/createApp.ts lines 132-173)

`createZipFile` scans the source directory with
`archive.glob("**/*", { cwd: sourceDir, ignore: ["node_modules/**", ".git/**",
"dist/**", zipFileName], dot: true }, { prefix: projectName ++ "/" })`.
We model a scanned entry as its path relative to `sourceDir`, split into
segments, and translate the minimatch semantics of the four ignore patterns:
a pattern `dir/**` matches any path whose first segment is `dir` and which has
at least one further segment (the bare directory entry itself is not matched),
and the literal pattern `zipFileName` matches only the single-segment path
equal to that basename. `dot: true` makes `**/*` match every entry, hidden
files included, so the scan itself is the full recursive listing. -/

/-- A path relative to the archiver's source directory, as a list of segments. -/
abbrev EntryPath := List String

/-- Minimatch semantics of an ignore pattern of the shape `dir/**`: it matches
the contents of `dir` but not the bare directory entry `dir` itself. -/
def matchesDirGlob (dir : String) : EntryPath → Bool
  | d :: _ :: _ => d == dir
  | _ => false

/-- The combined ignore test of `createZipFile`: the three directory globs
`node_modules/**`, `.git/**`, `dist/**` plus the literal basename of the
destination archive (which, as a glob, matches only at the scan root). -/
def isIgnored (zipFileName : String) (p : EntryPath) : Bool :=
  matchesDirGlob "node_modules" p || matchesDirGlob ".git" p ||
    matchesDirGlob "dist" p || p == [zipFileName]

/-- The set of entries `createZipFile` stores in the archive, given the full
recursive listing `files` of the source directory (the `**/*`, `dot: true`
scan) and the basename of the destination archive. Inside the zip each entry
is additionally stored under the `projectName ++ "/"` prefix, which does not
affect which entries are present. -/
def createZipFileEntries (files : List EntryPath) (zipFileName : String) :
    List EntryPath :=
  files.filter (fun p => !(isIgnored zipFileName p))

/-! ## Uploader: `uploadToFirebase` (src/src/commands/createApp.ts lines 175-222) -/

/-- The storage request `uploadToFirebase` issues: destination object path and
content type metadata. -/
structure UploadRequest where
  storagePath : String
  contentType : String
  deriving Repr, DecidableEq

/-- The request built at lines 183-190: path
`source_files/` ++ uid ++ `/` ++ fileName and content type `application/zip`. -/
def uploadRequestFor (uid fileName : String) : UploadRequest :=
  { storagePath := "source_files/" ++ uid ++ "/" ++ fileName
    contentType := "application/zip" }

/-- Terminal outcome of the Firebase upload task, as observed by the
`state_changed` observer: either the completion callback or the error
callback fires. -/
inductive UploadOutcome where
  | completed
  | failed (e : JsError)
  deriving Repr, DecidableEq

/-- Result of `uploadToFirebase`: the completion callback resolves the promise
with the `fileName` argument unchanged; the error callback rejects with the
task's error. -/
def uploadToFirebase (fileName : String) (o : UploadOutcome) :
    Except JsError String :=
  match o with
  | .completed => .ok fileName
  | .failed e => .error e

/-- JavaScript `Math.round` on the exact (rational) value of its argument:
`Math.round x = ⌊x + 0.5⌋`. -/
def jsRound (q : ℚ) : ℤ := ⌊q + 1 / 2⌋

/-- The progress percentage reported by the `state_changed` observer
(lines 197-199): `Math.round(snapshot.bytesTransferred / snapshot.totalBytes * 100)`,
with the division and multiplication taken exactly over ℚ. -/
def progressPct (bytesTransferred totalBytes : ℕ) : ℤ :=
  jsRound ((bytesTransferred : ℚ) / (totalBytes : ℚ) * 100)

/-! ## Backend publisher: `createAppInBackend`
(src/src/commands/createApp.ts lines 224-298) -/

/-- The parts of the `fetch` response that `createAppInBackend` inspects:
`response.ok`, `response.status`, the `appId` field of the parsed JSON body
(`none` when the field is absent), and the response body text read in the
non-ok branch. -/
structure BackendResponse where
  ok : Bool
  status : Nat
  appId : Option String
  bodyText : String
  deriving Repr, DecidableEq

/-- Outcome of the `fetch` call: a response, or a thrown error (the abort of
the 30-second timer surfaces here as an error named `AbortError`; a network
failure as a `TypeError` whose message contains `fetch`). -/
inductive FetchOutcome where
  | response (r : BackendResponse)
  | thrown (e : JsError)
  deriving Repr, DecidableEq

/-- The client-side timeout installed by
`setTimeout(() => controller.abort(), 30000)` at line 239, in milliseconds. -/
def timeoutMs : Nat := 30000

/-- The error `fetch` rejects with when the `AbortController` installed by the
timeout fires: its `name` is `AbortError`. -/
def timeoutAbortError : JsError :=
  { name := "AbortError", message := "This operation was aborted" }

/-- Message of the error thrown at line 266 when the 2xx response body has no
usable `appId`. -/
def missingAppIdMessage : String :=
  "Deployment service did not return a valid app ID"

/-- Message of the timeout error thrown at line 287. -/
def requestTimeoutMessage : String :=
  "Request timed out after 30 seconds - please check your internet connection"

/-- Message of the unreachable error thrown at line 291. -/
def unreachableMessage : String :=
  "Unable to reach deployment service - please verify your internet connection"

/-- The `try` body of `createAppInBackend` (lines 241-282): on `response.ok`,
read `appId` from the JSON body and throw when it is falsy (absent or the
empty string); otherwise throw a `Deployment service error` carrying the
status and the body text. A thrown fetch outcome propagates. -/
def createAppFetchPhase (o : FetchOutcome) : Except JsError String :=
  match o with
  | .thrown e => .error e
  | .response r =>
    if r.ok then
      match r.appId with
      | some s =>
        if s = "" then .error { name := "Error", message := missingAppIdMessage }
        else .ok s
      | none => .error { name := "Error", message := missingAppIdMessage }
    else
      .error { name := "Error"
               message := "Deployment service error (" ++ toString r.status ++
                 "): " ++ r.bodyText }

/-- The `catch` block of `createAppInBackend` (lines 283-297): an `AbortError`
becomes the request-timeout error, an error whose message contains `fetch`
becomes the unreachable error, anything else is wrapped as
`Deployment request failed: ...`. -/
def createAppCatchPhase (e : JsError) : JsError :=
  if e.name = "AbortError" then
    { name := "Error", message := requestTimeoutMessage }
  else if msgIncludes e.message "fetch" then
    { name := "Error", message := unreachableMessage }
  else
    { name := "Error", message := "Deployment request failed: " ++ e.message }

/-- `createAppInBackend`: the `try` body with every thrown error rewritten by
the `catch` block. On success it returns the `appId` string. -/
def createAppInBackend (o : FetchOutcome) : Except JsError String :=
  match createAppFetchPhase o with
  | .ok s => .ok s
  | .error e => .error (createAppCatchPhase e)

/-! ## Authentication: `AuthManager` (src/src/auth/index.ts) -/

/-- The `switch` of `getAuthErrorMessage` (src/src/auth/index.ts lines
101-118), mapping a provider error code to a stable user-readable message. -/
def getAuthErrorMessage (errorCode : String) : String :=
  if errorCode = "auth/user-not-found" then
    "No account found with this email address."
  else if errorCode = "auth/wrong-password" then
    "Incorrect password."
  else if errorCode = "auth/email-already-in-use" then
    "An account with this email already exists."
  else if errorCode = "auth/weak-password" then
    "Password should be at least 6 characters."
  else if errorCode = "auth/invalid-email" then
    "Invalid email address."
  else if errorCode = "auth/too-many-requests" then
    "Too many failed attempts. Please try again later."
  else
    "Authentication failed. Please try again."

/-- The six provider codes `getAuthErrorMessage` recognises. -/
def knownAuthCodes : List String :=
  ["auth/user-not-found", "auth/wrong-password", "auth/email-already-in-use",
   "auth/weak-password", "auth/invalid-email", "auth/too-many-requests"]

/-- The seven fixed messages `getAuthErrorMessage` can return. -/
def authMessages : List String :=
  ["No account found with this email address.", "Incorrect password.",
   "An account with this email already exists.",
   "Password should be at least 6 characters.", "Invalid email address.",
   "Too many failed attempts. Please try again later.",
   "Authentication failed. Please try again."]

/-- The authenticated user record returned on success (the `AuthUser`
interface, src/src/auth/index.ts lines 13-18, without the provider handle). -/
structure AuthUser where
  uid : String
  email : Option String
  deriving Repr, DecidableEq

/-- Outcome of the provider call underlying `signIn` / `signUp`: a credential
or a thrown provider error carrying a code. -/
inductive AuthOutcome where
  | success (u : AuthUser)
  | failure (code : String)
  deriving Repr, DecidableEq

/-- `AuthManager.signIn` (lines 48-67): on provider success return the user;
on provider failure throw `new Error(getAuthErrorMessage(error.code))`. -/
def signIn (o : AuthOutcome) : Except String AuthUser :=
  match o with
  | .success u => .ok u
  | .failure code => .error (getAuthErrorMessage code)

/-- `AuthManager.signUp` (lines 69-88): same error mapping as `signIn`. -/
def signUp (o : AuthOutcome) : Except String AuthUser :=
  match o with
  | .success u => .ok u
  | .failure code => .error (getAuthErrorMessage code)

/-! ## Workflow orchestrator: `createApp`
(src/src/commands/createApp.ts lines 13-130) -/

/-- Result of the prompts `validate` callback at lines 26-31: `true`
(rendered here as `ok`) or a validation message (on which the prompts library
re-asks). -/
inductive ValidationResult where
  | ok
  | msg (m : String)
  deriving Repr, DecidableEq

/-- The app-name validator: `value.length < 3` and `value.length > 50` are
rejected with a message, everything else accepted. The raw, untrimmed prompt
input is validated. -/
def validateAppName (value : String) : ValidationResult :=
  if value.length < 3 then
    .msg "App name must be at least 3 characters long"
  else if value.length > 50 then
    .msg "App name must be less than 50 characters"
  else
    .ok

/-- Outcomes of the external steps of one `createApp` run. `promptResult` is
the `appName` field of the prompts answer: `none` models a falsy value (the
user cancelled, or the prompt threw `ExitPromptError`); `archiveOk` and
`uploadOk` are the outcomes of `createZipFile` and `uploadToFirebase`;
`publish` is the fetch outcome consumed by `createAppInBackend`; `unlinkOk`
is the outcome of the `fs.unlink` cleanup. -/
structure RunEnv where
  promptResult : Option String
  archiveOk : Bool
  uploadOk : Bool
  publish : FetchOutcome
  unlinkOk : Bool
  deriving Repr, DecidableEq

/-- Primary outcome of a `createApp` run: an early return on cancellation, a
normal completion, or a rethrown error. -/
inductive Outcome where
  | cancelled
  | success (appId : String)
  | failed (message : String)
  deriving Repr, DecidableEq

/-- Observable trace of one `createApp` run: its primary outcome, which stages
were entered, the `appName` argument passed to `createAppInBackend` (when the
backend was called), and whether the temporary zip file exists at the end. -/
structure RunResult where
  outcome : Outcome
  archiveAttempted : Bool
  uploadAttempted : Bool
  publishAttempted : Bool
  unlinkAttempted : Bool
  publishedAppName : Option String
  zipExists : Bool
  deriving Repr, DecidableEq

/-- The `finally` block at lines 106-116: `fs.unlink` inside its own
try/catch. Deletion success removes the file; deletion failure only logs a
warning and leaves the state (and the primary outcome) unchanged. -/
def runCleanup (env : RunEnv) (r : RunResult) : RunResult :=
  { r with
    unlinkAttempted := true
    zipExists := if env.unlinkOk then false else r.zipExists }

/-- The control flow of `createApp`. Falsy `appName` returns early (line 34).
Otherwise the name is trimmed (line 39), `createZipFile` is awaited inside a
try/catch that only rethrows (lines 58-66) — note the `finally` cleanup block
belongs to the *next* try statement (line 73), so an archiving failure skips
it — then upload and publish run inside `try ... finally cleanup`
(lines 73-116). `createWriteStream(outputPath)` creates the destination file
before the scan, so the file exists from the archiving stage on. Errors from
upload/publish propagate after the `finally` block and are rethrown by the
outer catch (line 128). -/
def createAppRun (env : RunEnv) : RunResult :=
  match env.promptResult with
  | none =>
    { outcome := .cancelled, archiveAttempted := false, uploadAttempted := false
      publishAttempted := false, unlinkAttempted := false
      publishedAppName := none, zipExists := false }
  | some raw =>
    let appName := jsTrim raw
    if env.archiveOk then
      if env.uploadOk then
        match createAppInBackend env.publish with
        | .ok appId =>
          runCleanup env
            { outcome := .success appId, archiveAttempted := true
              uploadAttempted := true, publishAttempted := true
              unlinkAttempted := false, publishedAppName := some appName
              zipExists := true }
        | .error e =>
          runCleanup env
            { outcome := .failed e.message, archiveAttempted := true
              uploadAttempted := true, publishAttempted := true
              unlinkAttempted := false, publishedAppName := some appName
              zipExists := true }
      else
        runCleanup env
          { outcome := .failed "upload error", archiveAttempted := true
            uploadAttempted := true, publishAttempted := false
            unlinkAttempted := false, publishedAppName := none
            zipExists := true }
    else
      { outcome := .failed "archive error", archiveAttempted := true
        uploadAttempted := false, publishAttempted := false
        unlinkAttempted := false, publishedAppName := none, zipExists := true }

/-- Process exit status, from the shell layer (src/src/index.ts lines
109-118): normal completion and user cancellation exit 0, an uncaught error
exits 1. -/
def exitCode (o : Outcome) : Nat :=
  match o with
  | .cancelled => 0
  | .success _ => 0
  | .failed _ => 1

/-- A run in which the user enters the name "myapp" and `createZipFile`
fails; the remaining outcomes are arbitrary. -/
def archiveFailEnv : RunEnv :=
  { promptResult := some "myapp", archiveOk := false, uploadOk := true
    publish := FetchOutcome.response
      { ok := true, status := 200, appId := some "app123", bodyText := "" }
    unlinkOk := true }

/-- A fully successful run with input name "myapp". -/
def happyEnv : RunEnv :=
  { promptResult := some "myapp", archiveOk := true, uploadOk := true
    publish := FetchOutcome.response
      { ok := true, status := 200, appId := some "app123", bodyText := "" }
    unlinkOk := true }

/-- A run cancelled at the app-name prompt. -/
def cancelledEnv : RunEnv :=
  { promptResult := none, archiveOk := true, uploadOk := true
    publish := FetchOutcome.response
      { ok := true, status := 200, appId := some "app123", bodyText := "" }
    unlinkOk := true }

/-- A successful run whose prompt input is `"  a"`: two spaces followed by
`a`, of length 3, so the validator accepts it, while its trimmed form `"a"`
has length 1. -/
def paddedNameEnv : RunEnv :=
  { promptResult := some "  a", archiveOk := true, uploadOk := true
    publish := FetchOutcome.response
      { ok := true, status := 200, appId := some "app123", bodyText := "" }
    unlinkOk := true }

/-! ## Theorems -/

/-- C4: the app-name prompt validator accepts an input exactly when its length
is between 3 and 50 inclusive; an input of length < 3 is rejected with the
"at least 3 characters" message and one of length > 50 with the "less than 50
characters" message (on a message the prompts library re-asks the question). -/
theorem appName_validate_iff_length_3_to_50 (v : String) :
    (validateAppName v = ValidationResult.ok ↔ 3 ≤ v.length ∧ v.length ≤ 50) ∧
    (v.length < 3 →
      validateAppName v =
        ValidationResult.msg "App name must be at least 3 characters long") ∧
    (50 < v.length →
      validateAppName v =
        ValidationResult.msg "App name must be less than 50 characters") := by
  unfold validateAppName
  refine ⟨?_, ?_, ?_⟩
  · constructor
    · intro h
      split at h
      · exact absurd h (by simp)
      · split at h
        · exact absurd h (by simp)
        · omega
    · intro h
      rw [if_neg (by omega), if_neg (by omega)]
  · intro h
    rw [if_pos h]
  · intro h
    rw [if_neg (by omega), if_pos h]

/-- Witness for C4 at the concrete rejected input "ab" (length 2). -/
theorem appName_validate_iff_length_3_to_50_witness :
    validateAppName "ab" =
      ValidationResult.msg "App name must be at least 3 characters long" :=
  (appName_validate_iff_length_3_to_50 "ab").2.1 (by decide)

/-- C7: `uploadToFirebase` addresses the object-store path
`source_files/{uid}/{fileName}`, sets the content type to the zip media type,
and on completion resolves with exactly the remote name it was given. -/
theorem uploadToFirebase_path_and_result (uid fileName : String) :
    (uploadRequestFor uid fileName).storagePath =
      "source_files/" ++ uid ++ "/" ++ fileName ∧
    (uploadRequestFor uid fileName).contentType = "application/zip" ∧
    uploadToFirebase fileName UploadOutcome.completed = Except.ok fileName :=
  ⟨rfl, rfl, rfl⟩

/-- C3: on a 2xx response, `createAppInBackend` returns the `appId` from the
JSON body when the field is present and non-empty, and fails with the
missing-app-id error (wrapped by the catch block into
`Deployment request failed: ...`) when the field is absent or empty. -/
theorem createAppInBackend_2xx_appId (r : BackendResponse) (hok : r.ok = true) :
    (∀ s, r.appId = some s → s ≠ "" →
      createAppInBackend (FetchOutcome.response r) = Except.ok s) ∧
    (r.appId = none ∨ r.appId = some "" →
      createAppInBackend (FetchOutcome.response r) =
        Except.error { name := "Error",
                       message := "Deployment request failed: " ++
                         missingAppIdMessage }) := by
  constructor
  · intro s hs hne
    simp only [createAppInBackend, createAppFetchPhase, hok, if_pos, hs,
      if_neg hne]
  · intro h
    have hmsg : createAppCatchPhase { name := "Error", message := missingAppIdMessage } =
        { name := "Error",
          message := "Deployment request failed: " ++ missingAppIdMessage } := by
      decide
    rcases h with h | h <;>
      simp only [createAppInBackend, createAppFetchPhase, hok, if_pos, h,
        if_pos rfl, hmsg]

/-- Witness for C3: HTTP 200 with body `{"appId":"abc123"}` returns
`"abc123"`; HTTP 200 with body `{}` fails with the missing-app-id error. -/
theorem createAppInBackend_2xx_appId_witness :
    createAppInBackend
        (FetchOutcome.response
          { ok := true, status := 200, appId := some "abc123", bodyText := "" }) =
      Except.ok "abc123" ∧
    createAppInBackend
        (FetchOutcome.response
          { ok := true, status := 200, appId := none, bodyText := "" }) =
      Except.error { name := "Error",
                     message := "Deployment request failed: " ++
                       missingAppIdMessage } :=
  ⟨(createAppInBackend_2xx_appId
      { ok := true, status := 200, appId := some "abc123", bodyText := "" }
      rfl).1 "abc123" rfl (by decide),
   (createAppInBackend_2xx_appId
      { ok := true, status := 200, appId := none, bodyText := "" }
      rfl).2 (Or.inl rfl)⟩

/-- C6: the client-side timeout constant is 30000 ms (30 seconds), and when
the timer's `AbortController` aborts the in-flight request — `fetch` then
rejects with an error named `AbortError` — `createAppInBackend` fails with the
request-timeout error, taking precedence over every other error mapping of
the catch block. -/
theorem createAppInBackend_timeout (e : JsError) (h : e.name = "AbortError") :
    timeoutMs = 30000 ∧
    createAppInBackend (FetchOutcome.thrown e) =
      Except.error { name := "Error", message := requestTimeoutMessage } := by
  refine ⟨rfl, ?_⟩
  simp [createAppInBackend, createAppFetchPhase, createAppCatchPhase, h]

/-- Witness for C6 at the concrete abort error `fetch` produces. -/
theorem createAppInBackend_timeout_witness :
    timeoutMs = 30000 ∧
    createAppInBackend (FetchOutcome.thrown timeoutAbortError) =
      Except.error { name := "Error", message := requestTimeoutMessage } :=
  createAppInBackend_timeout timeoutAbortError rfl

/-- C9: `getAuthErrorMessage` is total — every provider code is mapped to one
of the seven fixed user-readable messages, every code outside the known set to
the generic authentication-failed message — and a failing `signIn` / `signUp`
reports exactly that mapped message, never the raw provider code. -/
theorem authErrorMessage_total_and_stable (code : String) :
    getAuthErrorMessage code ∈ authMessages ∧
    (code ∉ knownAuthCodes →
      getAuthErrorMessage code = "Authentication failed. Please try again.") ∧
    signIn (AuthOutcome.failure code) =
      Except.error (getAuthErrorMessage code) ∧
    signUp (AuthOutcome.failure code) =
      Except.error (getAuthErrorMessage code) := by
  refine ⟨?_, ?_, rfl, rfl⟩
  · unfold getAuthErrorMessage authMessages
    repeat' split
    all_goals simp
  · intro h
    simp only [knownAuthCodes, List.mem_cons, List.not_mem_nil, or_false,
      not_or] at h
    obtain ⟨h1, h2, h3, h4, h5, h6⟩ := h
    unfold getAuthErrorMessage
    rw [if_neg h1, if_neg h2, if_neg h3, if_neg h4, if_neg h5, if_neg h6]

/-- Witness for C9 at the unknown provider code
`auth/network-request-failed`. -/
theorem authErrorMessage_total_and_stable_witness :
    getAuthErrorMessage "auth/network-request-failed" =
      "Authentication failed. Please try again." :=
  (authErrorMessage_total_and_stable "auth/network-request-failed").2.1
    (by decide)

/-- C5: a run whose app-name prompt yields a falsy answer (cancellation)
ends with the cancelled outcome: no archive is created, no upload attempted,
no backend call made, no zip file on disk, and the process exit status is 0. -/
theorem cancelled_run_has_no_effects (env : RunEnv)
    (h : env.promptResult = none) :
    (createAppRun env).outcome = Outcome.cancelled ∧
    (createAppRun env).archiveAttempted = false ∧
    (createAppRun env).uploadAttempted = false ∧
    (createAppRun env).publishAttempted = false ∧
    (createAppRun env).zipExists = false ∧
    exitCode (createAppRun env).outcome = 0 := by
  simp [createAppRun, h, exitCode]

/-- Witness for C5 at a concrete cancelled environment. -/
theorem cancelled_run_has_no_effects_witness :
    (createAppRun cancelledEnv).outcome = Outcome.cancelled ∧
    (createAppRun cancelledEnv).archiveAttempted = false ∧
    (createAppRun cancelledEnv).uploadAttempted = false ∧
    (createAppRun cancelledEnv).publishAttempted = false ∧
    (createAppRun cancelledEnv).zipExists = false ∧
    exitCode (createAppRun cancelledEnv).outcome = 0 :=
  cancelled_run_has_no_effects cancelledEnv rfl

/-- C1 counterexample: when `createZipFile` itself fails, the rethrow at
line 65 happens before the try/finally of lines 73-116 is entered, so the
`fs.unlink` cleanup never runs and the partially written archive file (created
by `createWriteStream` before the scan) still exists when the workflow ends. -/
theorem cleanup_skipped_on_archive_failure :
    (createAppRun archiveFailEnv).archiveAttempted = true ∧
    (createAppRun archiveFailEnv).unlinkAttempted = false ∧
    (createAppRun archiveFailEnv).zipExists = true := by
  refine ⟨rfl, rfl, rfl⟩

/-- C1 amended: on every run in which `createZipFile` succeeds — whether the
run then succeeds or fails in Uploading or Publishing — the `fs.unlink`
cleanup runs; when the deletion succeeds the archive file no longer exists,
and the success or failure of the deletion never changes the run's primary
outcome. (When Archiving itself fails, cleanup is skipped.) -/
theorem cleanup_runs_after_archive_success (env : RunEnv) (raw : String)
    (hp : env.promptResult = some raw) (ha : env.archiveOk = true) :
    (createAppRun env).unlinkAttempted = true ∧
    (env.unlinkOk = true → (createAppRun env).zipExists = false) ∧
    (∀ b, (createAppRun { env with unlinkOk := b }).outcome =
      (createAppRun env).outcome) := by
  obtain ⟨p, a, u, pub, ul⟩ := env
  simp only at hp ha
  subst hp
  subst ha
  cases u
  · simp [createAppRun, runCleanup]
  · rcases hpub : createAppInBackend pub with s | e <;>
      simp [createAppRun, runCleanup, hpub]

/-- Witness for C1 (amended) at a concrete successful run. -/
theorem cleanup_runs_after_archive_success_witness :
    (createAppRun happyEnv).unlinkAttempted = true ∧
    (createAppRun happyEnv).zipExists = false ∧
    (createAppRun { happyEnv with unlinkOk := false }).outcome =
      (createAppRun happyEnv).outcome :=
  ⟨(cleanup_runs_after_archive_success happyEnv "myapp" rfl rfl).1,
   (cleanup_runs_after_archive_success happyEnv "myapp" rfl rfl).2.1 rfl,
   (cleanup_runs_after_archive_success happyEnv "myapp" rfl rfl).2.2 false⟩

/-- C2 counterexample: place the destination archive one directory below the
source root (outputPath = sourceDir/sub/p.zip, so the scan sees the entry
`sub/p.zip` and the ignore list carries only the basename `p.zip`). The
basename glob matches only at the scan root, so the archive includes the
destination archive file itself. -/
theorem zip_includes_nested_destination :
    ["sub", "p.zip"] ∈
      createZipFileEntries [["sub", "p.zip"], ["a.txt"]] "p.zip" := by
  decide

/-- C2 amended: the archive contains exactly the scanned entries (hidden files
included) that match none of the ignore globs `node_modules/**`, `.git/**`,
`dist/**` and the destination basename; the destination archive file itself is
excluded whenever it sits directly in the source root — which is where
`createApp` always places it — but a destination nested deeper in the source
tree is not excluded. -/
theorem zip_entries_exact (files : List EntryPath) (zipFileName : String) :
    [zipFileName] ∉ createZipFileEntries files zipFileName ∧
    (∀ p, p ∈ createZipFileEntries files zipFileName ↔
      p ∈ files ∧ isIgnored zipFileName p = false) := by
  constructor
  · intro hmem
    rw [createZipFileEntries, List.mem_filter] at hmem
    have hign : isIgnored zipFileName [zipFileName] = true := by
      simp [isIgnored, matchesDirGlob]
    rw [hign] at hmem
    simp at hmem
  · intro p
    rw [createZipFileEntries, List.mem_filter]
    simp

/-- Witness for C2 (amended): a plain file is kept, the root-level destination
basename is dropped. -/
theorem zip_entries_exact_witness :
    ["a.txt"] ∈ createZipFileEntries [["a.txt"], ["x.zip"]] "x.zip" :=
  ((zip_entries_exact [["a.txt"], ["x.zip"]] "x.zip").2 ["a.txt"]).mpr
    (by decide)

/-- C10: the length validation is applied to the raw prompt input, but the
name sent to the backend is the trimmed input: the input `"  a"` (length 3)
is accepted by the validator, yet the `appName` passed to
`createAppInBackend` is `"a"`, of length 1 — below the 3-character bound
enforced at the prompt. -/
theorem appName_validated_raw_but_published_trimmed :
    validateAppName "  a" = ValidationResult.ok ∧
    jsTrim "  a" = "a" ∧
    (jsTrim "  a").length < 3 ∧
    (createAppRun paddedNameEnv).publishedAppName = some "a" ∧
    (createAppRun paddedNameEnv).outcome = Outcome.success "app123" := by
  refine ⟨rfl, by decide, by decide, ?_, ?_⟩ <;> decide

/-- C8: the reported upload percentage `Math.round(bytesTransferred /
totalBytes * 100)` is monotonically non-decreasing in `bytesTransferred`,
stays within 0–100 while `bytesTransferred ≤ totalBytes`, and equals exactly
100 when `bytesTransferred` reaches `totalBytes` (arithmetic taken exactly
over ℚ). -/
theorem upload_progress_monotone_bounded (b1 b2 t : ℕ)
    (ht : 0 < t) (h12 : b1 ≤ b2) (h2t : b2 ≤ t) :
    progressPct b1 t ≤ progressPct b2 t ∧
    0 ≤ progressPct b1 t ∧
    progressPct b2 t ≤ 100 ∧
    progressPct t t = 100 := by
  have ht' : (0 : ℚ) < (t : ℚ) := by exact_mod_cast ht
  have htne : (t : ℚ) ≠ 0 := ne_of_gt ht'
  refine ⟨?_, ?_, ?_, ?_⟩
  · apply Int.floor_mono
    have hb : (b1 : ℚ) ≤ (b2 : ℚ) := by exact_mod_cast h12
    gcongr
  · rw [progressPct, jsRound]
    have h0 : (0 : ℚ) ≤ (b1 : ℚ) / (t : ℚ) * 100 := by positivity
    exact Int.le_floor.mpr (by push_cast; linarith)
  · rw [progressPct, jsRound]
    have hb : (b2 : ℚ) ≤ (t : ℚ) := by exact_mod_cast h2t
    have hd : (b2 : ℚ) / (t : ℚ) ≤ 1 := (div_le_one ht').mpr hb
    have hq : (b2 : ℚ) / (t : ℚ) * 100 + 1 / 2 < 101 := by nlinarith
    have := Int.floor_lt.mpr (show (b2 : ℚ) / (t : ℚ) * 100 + 1 / 2 <
      ((101 : ℤ) : ℚ) by push_cast; linarith)
    omega
  · rw [progressPct, jsRound, div_self htne]
    rw [Int.floor_eq_iff]
    norm_num

/-- Witness for C8 at the concrete snapshots 3 ≤ 5 of 8 total bytes. -/
theorem upload_progress_monotone_bounded_witness :
    progressPct 3 8 ≤ progressPct 5 8 ∧
    0 ≤ progressPct 3 8 ∧
    progressPct 5 8 ≤ 100 ∧
    progressPct 8 8 = 100 :=
  upload_progress_monotone_bounded 3 5 8 (by decide) (by decide) (by decide)

end AnomalyCli
